import Mathlib

/-!
Shallow embedding of the medicare-pipeline transformation and aggregation
code (csv_to_parquet.py, transform_data.py, create_analytics.py, api/main.py)
together with theorems settling the specification claims about it.

Conventions of the embedding:
* currency values (polars Decimal(10, 2)) are integers counted in hundredths;
* a nullable column cell is an Option value; polars element-wise arithmetic
  propagates nulls, aggregate sum skips them;
* a dataframe is a list of rows; column presence is tracked where the code
  branches on it;
* python strings are Lean strings, with slicing and stripping modelled on the
  character list.
-/

/-- Whitespace test used by the python str.strip model. -/
def pyWs (c : Char) : Bool := c.isWhitespace

/-- Python slicing s[:n] on a string. -/
def pySlice (s : String) (n : Nat) : String := String.mk (s.data.take n)

/-- Python str.strip(): drop leading and trailing whitespace characters. -/
def pyStrip (s : String) : String :=
  String.mk (((s.data.dropWhile pyWs).reverse.dropWhile pyWs).reverse)

/-- Null-propagating addition of two nullable currency values, the behaviour
of polars element-wise + on nullable columns. -/
def optAdd (a b : Option Int) : Option Int :=
  match a, b with
  | some x, some y => some (x + y)
  | _, _ => none

/-- Null-propagating subtraction, polars element-wise - on nullable columns. -/
def optSub (a b : Option Int) : Option Int :=
  match a, b with
  | some x, some y => some (x - y)
  | _, _ => none

/-- The thirteen line-level payment columns LINE_NCH_PMT_AMT_1..13 from
transform_data.py (LINE_PMT_COLS). -/
def linePmtCols : List String :=
  ["LINE_NCH_PMT_AMT_1", "LINE_NCH_PMT_AMT_2", "LINE_NCH_PMT_AMT_3",
   "LINE_NCH_PMT_AMT_4", "LINE_NCH_PMT_AMT_5", "LINE_NCH_PMT_AMT_6",
   "LINE_NCH_PMT_AMT_7", "LINE_NCH_PMT_AMT_8", "LINE_NCH_PMT_AMT_9",
   "LINE_NCH_PMT_AMT_10", "LINE_NCH_PMT_AMT_11", "LINE_NCH_PMT_AMT_12",
   "LINE_NCH_PMT_AMT_13"]

/-- One raw carrier claim row, restricted to its currency cells: a column
present in the batch has an entry, whose value may be null. -/
structure CarrierRow where
  cells : List (String × Option Int)
deriving DecidableEq, Repr

/-- Value of a currency column on a carrier row (used only for columns known
to be present in the batch). -/
def cellVal (r : CarrierRow) (c : String) : Option Int :=
  (r.cells.lookup c).join

/-- Embedding of the medicare_payment resolution for a carrier batch in
DataTransformer.create_fact_claims: when the batch has a CLM_PMT_AMT column
its cell is used directly; otherwise the present LINE_NCH_PMT_AMT columns are
combined left to right with element-wise + (payment_expr built in column
order, so a null cell makes the whole sum null); when none of them is present
the literal 0 is used. -/
def resolveCarrierMedicarePayment (cols : List String) (r : CarrierRow) : Option Int :=
  if "CLM_PMT_AMT" ∈ cols then cellVal r ("CLM_PMT_AMT")
  else
    match linePmtCols.filter (fun c => c ∈ cols) with
    | [] => some 0
    | c :: rest => rest.foldl (fun acc c2 => optAdd acc (cellVal r c2)) (cellVal r c)

/-- Columns of a carrier batch that reports payments only per line item,
with two line-level payment columns present. -/
def c2FailingCols : List String :=
  ["DESYNPUF_ID", "CLM_ID", "CLM_FROM_DT", "CLM_THRU_DT",
   "LINE_NCH_PMT_AMT_1", "LINE_NCH_PMT_AMT_2", "year", "bene_id_prefix"]

/-- A carrier claim row of that batch whose present line-level payment cells
are both null. -/
def c2FailingRow : CarrierRow :=
  { cells := [("LINE_NCH_PMT_AMT_1", none), ("LINE_NCH_PMT_AMT_2", none)] }

/-- C2: the batch has no CLM_PMT_AMT column, both present line-level payment
columns are null on the row, and the resolved medicare_payment is null rather
than the exact zero the specification requires: polars element-wise +
propagates nulls, so the line-level fallback returns null whenever a present
component cell is null. -/
theorem c2_all_null_line_payments_resolve_to_null :
    ("CLM_PMT_AMT" ∉ c2FailingCols)
    ∧ (linePmtCols.filter (fun c => c ∈ c2FailingCols)
        = ["LINE_NCH_PMT_AMT_1", "LINE_NCH_PMT_AMT_2"])
    ∧ cellVal c2FailingRow ("LINE_NCH_PMT_AMT_1") = none
    ∧ cellVal c2FailingRow ("LINE_NCH_PMT_AMT_2") = none
    ∧ resolveCarrierMedicarePayment c2FailingCols c2FailingRow = none := by
  decide

/-- Embedding of the bene_id_prefix derivation actually used in
CSVToParquetConverter.convert_file: DESYNPUF_ID sliced to its first two
characters, with nulls filled by the token 00.  Slicing a non-null short
string never yields null, so fill_null leaves it unchanged. -/
def convertFilePfx (beneId : Option String) : String :=
  match beneId with
  | none => "00"
  | some s => pySlice s 2

/-- Embedding of CSVToParquetConverter._get_bene_id_prefix: the first two
characters when the id is truthy and at least two characters long, otherwise
the default token 00 (a falsy value, that is an absent or empty id, and a
too-short id both fall through to the default). -/
def getBeneIdPfx (beneId : Option String) : String :=
  match beneId with
  | none => "00"
  | some s => if s ≠ "" ∧ 2 ≤ s.data.length then pySlice s 2 else "00"

/-- C7: on a one-character patient identifier the conversion path used by
convert_file keeps the identifier itself as the partition prefix, while the
helper _get_bene_id_prefix (and the specification) produce the default token
00; the two agree on null identifiers. -/
theorem c7_short_id_keeps_itself :
    convertFilePfx (some ("A")) = "A"
    ∧ getBeneIdPfx (some ("A")) = "00"
    ∧ convertFilePfx (some ("")) = ""
    ∧ getBeneIdPfx (some ("")) = "00"
    ∧ convertFilePfx none = "00"
    ∧ getBeneIdPfx none = "00" := by
  decide

/-- Base columns that DataTransformer.create_fact_claim_diagnoses requires in
a claim file before emitting any diagnosis rows. -/
def diagBaseCols : List String :=
  ["DESYNPUF_ID", "CLM_ID", "CLM_PMT_AMT", "year", "bene_id_prefix"]

/-- One source claim row as consumed by create_fact_claim_diagnoses: the base
cells plus the diagnosis cells by column name (a diagnosis column present in
the batch has an entry, whose value may be null). -/
structure ClaimSourceRow where
  beneId : String
  claimId : String
  clmPmtAmt : Option Int
  year : Int
  beneIdPfx : String
  diagCells : List (String × Option String)
deriving DecidableEq, Repr

/-- One claim file: the names of the columns present plus the rows. -/
structure ClaimSourceBatch where
  cols : List String
  rows : List ClaimSourceRow
deriving DecidableEq, Repr

/-- Embedding of the diagnosis-column discovery loop of
create_fact_claim_diagnoses: for i = 1..19, for each of the two name patterns
in order, keep the column name when the batch has that column. -/
def discoverDiagCols (cols : List String) : List String :=
  (List.range' 1 19).flatMap
    (fun i =>
      (["ICD9_DGNS_CD_", "DGNS_CD_"].map (fun p => p ++ toString i)).filter
        (fun c => c ∈ cols))

/-- The ICD-9 reference dictionary of DataTransformer (icd9_mappings). -/
def icd9Mappings : List (String × String) :=
  [("250", "Diabetes mellitus"),
   ("401", "Essential hypertension"),
   ("272", "Disorders of lipoid metabolism"),
   ("414", "Other forms of chronic ischemic heart disease"),
   ("427", "Cardiac dysrhythmias"),
   ("428", "Heart failure"),
   ("496", "Chronic airway obstruction"),
   ("311", "Depressive disorder"),
   ("715", "Osteoarthrosis"),
   ("724", "Other and unspecified disorders of back")]

/-- Embedding of DataTransformer._get_icd9_description: falsy or
whitespace-only codes give Unknown; codes of length at least three are looked
up by their first three characters; everything else is Other diagnosis. -/
def icd9Description (code : String) : String :=
  if code = "" ∨ pyStrip code = "" then "Unknown"
  else if 3 ≤ code.data.length then
    match icd9Mappings.lookup (pySlice code 3) with
    | some d => d
    | none => "Other diagnosis"
  else "Other diagnosis"

/-- One row of the fact_claim_diagnoses output. -/
structure FactClaimDiagRow where
  beneId : String
  claimId : String
  diagnosisCode : String
  diagnosisPosition : Nat
  payment : Option Int
  claimType : String
  year : Int
  beneIdPfx : String
  diagnosisDescription : String
deriving DecidableEq, Repr

/-- Row builder for one diagnosis column of create_fact_claim_diagnoses: a
null or empty cell yields no row, any other cell yields the row at 1-based
position i + 1 carrying the literal CLM_PMT_AMT cell as payment and the
description resolved from the reference dictionary. -/
def emitDiag (claimType : String) (i : Nat) (col : String)
    (r : ClaimSourceRow) : Option FactClaimDiagRow :=
  match (r.diagCells.lookup col).join with
  | none => none
  | some code =>
    if code = "" then none
    else
      some { beneId := r.beneId, claimId := r.claimId, diagnosisCode := code,
             diagnosisPosition := i + 1, payment := r.clmPmtAmt,
             claimType := claimType, year := r.year, beneIdPfx := r.beneIdPfx,
             diagnosisDescription := icd9Description code }

/-- Embedding of the per-file body of create_fact_claim_diagnoses: discover
the diagnosis columns, skip the file (emit nothing) when there is none or
when a base column is missing, otherwise emit, diagnosis column by diagnosis
column in discovery order, one row per source row whose cell is populated, at
the 1-based position given by the index of the column in the discovered list. -/
def diagnosesOfBatch (claimType : String) (b : ClaimSourceBatch) :
    List FactClaimDiagRow :=
  if discoverDiagCols b.cols = [] then []
  else if (diagBaseCols.filter (fun c => c ∉ b.cols)) ≠ [] then []
  else
    (discoverDiagCols b.cols).enum.flatMap
      (fun ic => b.rows.filterMap (emitDiag claimType ic.1 ic.2))

/-- A value surviving dropWhile: an element on which the predicate fails is
still in the suffix. -/
lemma mem_dropWhile_of_not {α : Type} (p : α → Bool) {l : List α} {c : α}
    (hc : c ∈ l) (hp : p c = false) : c ∈ l.dropWhile p := by
  induction l with
  | nil => cases hc
  | cons a tl ih =>
    rw [List.dropWhile_cons]
    by_cases ha : p a = true
    · rw [if_pos ha]
      rcases List.mem_cons.mp hc with rfl | h
      · rw [hp] at ha; cases ha
      · exact ih h
    · rw [if_neg ha]
      exact hc

/-- A string holding a non-whitespace character does not strip to empty. -/
lemma pyStrip_ne_empty {s : String} {c : Char} (hc : c ∈ s.data)
    (hw : pyWs c = false) : ¬pyStrip s = "" := by
  intro h
  have hdata : ((s.data.dropWhile pyWs).reverse.dropWhile pyWs).reverse = [] := by
    have h2 := congrArg String.data h
    simpa [pyStrip] using h2
  rw [List.reverse_eq_nil_iff, List.dropWhile_eq_nil_iff] at hdata
  have hcmem : c ∈ s.data.dropWhile pyWs := mem_dropWhile_of_not pyWs hc hw
  have := hdata c (by simpa using hcmem)
  rw [hw] at this
  cases this

/-- Successful association-list lookup means the pair is in the list. -/
lemma lookup_mem {l : List (String × String)} {k d : String}
    (h : l.lookup k = some d) : (k, d) ∈ l := by
  induction l with
  | nil => simp [List.lookup] at h
  | cons a tl ih =>
    obtain ⟨k1, v1⟩ := a
    rw [List.lookup] at h
    by_cases hk : k = k1
    · subst hk
      simp at h
      subst h
      exact List.mem_cons_self _ _
    · rw [beq_false_of_ne hk] at h
      exact List.mem_cons_of_mem _ (ih h)

/-- Every key of the ICD-9 dictionary has exactly three characters, one of
them non-whitespace. -/
lemma icd9_keys_facts :
    ∀ k ∈ icd9Mappings.map Prod.fst,
      k.data.length = 3 ∧ ∃ c, c ∈ k.data ∧ pyWs c = false := by
  decide

/-- A code whose three-character slice is a dictionary key is non-empty, at
least three characters long, and does not strip to empty. -/
lemma icd9_lookup_facts {code d : String}
    (h : icd9Mappings.lookup (pySlice code 3) = some d) :
    ¬code = "" ∧ ¬pyStrip code = "" ∧ 3 ≤ code.data.length := by
  have hmem : (pySlice code 3, d) ∈ icd9Mappings := lookup_mem h
  have hkey := icd9_keys_facts (pySlice code 3)
    (List.mem_map_of_mem Prod.fst hmem)
  have hkdata : (pySlice code 3).data = code.data.take 3 := rfl
  rw [hkdata] at hkey
  obtain ⟨hlen3, c, hcmem, hcw⟩ := hkey
  have hlen : 3 ≤ code.data.length := by
    have hmin : 3 ⊓ code.data.length = 3 := by
      rw [← List.length_take]; exact hlen3
    have h2 : 3 ⊓ code.data.length ≤ code.data.length := inf_le_right
    rw [hmin] at h2
    exact h2
  refine ⟨?_, pyStrip_ne_empty (List.mem_of_mem_take hcmem) hcw, hlen⟩
  intro hempty
  have : code.data = [] := congrArg String.data hempty
  rw [this] at hlen
  simp at hlen

/-- On a code whose three-character slice is a dictionary key, the resolved
description is the dictionary entry. -/
lemma icd9Description_mapped {code d : String}
    (h : icd9Mappings.lookup (pySlice code 3) = some d) :
    icd9Description code = d := by
  obtain ⟨hne, hstrip, hlen⟩ := icd9_lookup_facts h
  unfold icd9Description
  rw [if_neg (by push_neg; exact ⟨hne, hstrip⟩), if_pos hlen, h]

/-- On a code whose three-character slice is not a dictionary key, the
resolved description is one of the two fixed fallback tokens. -/
lemma icd9Description_unmapped {code : String}
    (h : icd9Mappings.lookup (pySlice code 3) = none) :
    icd9Description code = "Unknown" ∨ icd9Description code = "Other diagnosis" := by
  unfold icd9Description
  by_cases h1 : code = "" ∨ pyStrip code = ""
  · rw [if_pos h1]; exact Or.inl rfl
  · rw [if_neg h1]
    by_cases h2 : 3 ≤ code.data.length
    · rw [if_pos h2, h]; exact Or.inr rfl
    · rw [if_neg h2]; exact Or.inr rfl

/-- An emitted diagnosis row decomposed: populated code, position i + 1, the
parent CLM_PMT_AMT as payment, and the dictionary-resolved description. -/
lemma emitDiag_spec {ct : String} {i : Nat} {col : String}
    {r : ClaimSourceRow} {e : FactClaimDiagRow}
    (h : emitDiag ct i col r = some e) :
    ¬e.diagnosisCode = ""
    ∧ e.diagnosisDescription = icd9Description e.diagnosisCode
    ∧ e.diagnosisPosition = i + 1
    ∧ e.payment = r.clmPmtAmt := by
  unfold emitDiag at h
  split at h
  · cases h
  · rename_i code hcode
    split at h
    · cases h
    · rename_i hne
      cases h
      exact ⟨hne, rfl, rfl, rfl⟩

/-- C8: every emitted DiagnosisLine row has a non-empty code (null or empty
cells are filtered before emission), its description is resolved from the
three-character slice of the code only, giving the dictionary entry when that
slice is a key and one of the fixed fallback tokens otherwise. -/
theorem c8_diag_rows_prefix_matched (ct : String) (b : ClaimSourceBatch)
    (e : FactClaimDiagRow) (he : e ∈ diagnosesOfBatch ct b) :
    ¬e.diagnosisCode = ""
    ∧ e.diagnosisDescription = icd9Description e.diagnosisCode
    ∧ (∀ d, icd9Mappings.lookup (pySlice e.diagnosisCode 3) = some d →
        e.diagnosisDescription = d)
    ∧ (icd9Mappings.lookup (pySlice e.diagnosisCode 3) = none →
        e.diagnosisDescription = "Unknown"
          ∨ e.diagnosisDescription = "Other diagnosis") := by
  unfold diagnosesOfBatch at he
  split at he
  · cases he
  · split at he
    · cases he
    · obtain ⟨ic, _, hic⟩ := List.mem_flatMap.mp he
      obtain ⟨r, _, hr⟩ := List.mem_filterMap.mp hic
      obtain ⟨hne, hdesc, _, _⟩ := emitDiag_spec hr
      refine ⟨hne, hdesc, ?_, ?_⟩
      · intro d hd
        rw [hdesc]
        exact icd9Description_mapped hd
      · intro hd
        rw [hdesc]
        exact icd9Description_unmapped hd

/-- A small inpatient claim file with one populated diagnosis slot, one empty
slot cell, and one null slot cell. -/
def sampleDiagBatch : ClaimSourceBatch :=
  { cols := ["DESYNPUF_ID", "CLM_ID", "CLM_PMT_AMT", "year", "bene_id_prefix",
             "ICD9_DGNS_CD_1"],
    rows := [{ beneId := "B1", claimId := "K1", clmPmtAmt := some 12000,
               year := 2008, beneIdPfx := "B1",
               diagCells := [("ICD9_DGNS_CD_1", some "4280")] },
             { beneId := "B2", claimId := "K2", clmPmtAmt := some 500,
               year := 2008, beneIdPfx := "B2",
               diagCells := [("ICD9_DGNS_CD_1", some "")] },
             { beneId := "B3", claimId := "K3", clmPmtAmt := none,
               year := 2008, beneIdPfx := "B3",
               diagCells := [("ICD9_DGNS_CD_1", none)] }] }

/-- The first emitted row of the sample batch. -/
def sampleDiagRow : FactClaimDiagRow :=
  { beneId := "B1", claimId := "K1", diagnosisCode := "4280",
    diagnosisPosition := 1, payment := some 12000, claimType := "inpatient",
    year := 2008, beneIdPfx := "B1", diagnosisDescription := "Heart failure" }

/-- Witness for C8 at the sample batch: the emitted row for code 4280 is
non-empty and carries the dictionary entry of its three-character slice. -/
theorem c8_diag_rows_prefix_matched_witness :
    sampleDiagRow ∈ diagnosesOfBatch "inpatient" sampleDiagBatch
    ∧ (¬sampleDiagRow.diagnosisCode = ""
      ∧ sampleDiagRow.diagnosisDescription
          = icd9Description sampleDiagRow.diagnosisCode
      ∧ (∀ d, icd9Mappings.lookup (pySlice sampleDiagRow.diagnosisCode 3) = some d →
          sampleDiagRow.diagnosisDescription = d)
      ∧ (icd9Mappings.lookup (pySlice sampleDiagRow.diagnosisCode 3) = none →
          sampleDiagRow.diagnosisDescription = "Unknown"
            ∨ sampleDiagRow.diagnosisDescription = "Other diagnosis")) :=
  ⟨by decide, c8_diag_rows_prefix_matched "inpatient" sampleDiagBatch sampleDiagRow
    (by decide)⟩

/-- Extracting one position from the concatenation over diagnosis columns:
when the 1-based positions tag the emitting column index and the indices are
distinct, filtering the concatenation to position i + 1 returns exactly the
block of column i. -/
lemma filter_pos_flatMap (g : Nat → String → List FactClaimDiagRow)
    (hg : ∀ j c e, e ∈ g j c → e.diagnosisPosition = j + 1)
    (L : List (Nat × String)) (hnd : (L.map Prod.fst).Nodup)
    (i : Nat) (col : String) (hmem : (i, col) ∈ L) :
    (L.flatMap (fun jc => g jc.1 jc.2)).filter
        (fun e => e.diagnosisPosition = i + 1) = g i col := by
  induction L with
  | nil => cases hmem
  | cons hd tl ih =>
    obtain ⟨j, c⟩ := hd
    rw [List.flatMap_cons, List.filter_append]
    rw [List.map_cons, List.nodup_cons] at hnd
    rcases List.mem_cons.mp hmem with heq | hmem2
    · injection heq with hj hc
      subst hj
      subst hc
      have h1 : (g i col).filter (fun e => e.diagnosisPosition = i + 1)
          = g i col := by
        apply List.filter_eq_self.mpr
        intro e hme
        simpa using hg i col e hme
      have h2 : (tl.flatMap (fun jc => g jc.1 jc.2)).filter
          (fun e => e.diagnosisPosition = i + 1) = [] := by
        apply List.filter_eq_nil_iff.mpr
        intro e hme
        obtain ⟨jc, hjc, hme2⟩ := List.mem_flatMap.mp hme
        have hpos := hg jc.1 jc.2 e hme2
        intro hcontra
        have h3 := of_decide_eq_true hcontra
        rw [hpos] at h3
        have hji : jc.1 = i := by omega
        apply hnd.1
        have h4 : jc.1 ∈ List.map Prod.fst tl := List.mem_map_of_mem Prod.fst hjc
        rwa [hji] at h4
      rw [h1, h2, List.append_nil]
    · have h1 : (g j c).filter (fun e => e.diagnosisPosition = i + 1) = [] := by
        apply List.filter_eq_nil_iff.mpr
        intro e hme
        have hpos := hg j c e hme
        intro hcontra
        have h3 := of_decide_eq_true hcontra
        rw [hpos] at h3
        have hji : j = i := by omega
        apply hnd.1
        have h4 : i ∈ List.map Prod.fst tl := by
          have := List.mem_map_of_mem Prod.fst hmem2
          simpa using this
        rwa [hji]
      rw [h1, List.nil_append]
      exact ih hnd.2 hmem2

/-- C4 (amended): a batch missing one of the base columns (in particular a
carrier batch without CLM_PMT_AMT) emits no DiagnosisLine rows at all; when
the base columns are all present, for the diagnosis column at index i of the
discovered column list, the rows emitted at position i + 1 are exactly one
row per source row with a populated cell in that column, built by emitDiag,
hence carrying position i + 1 and the parent CLM_PMT_AMT as payment. -/
theorem c4_one_row_per_populated_slot (ct : String) (b : ClaimSourceBatch) :
    ((diagBaseCols.filter (fun c => c ∉ b.cols)) ≠ [] →
      diagnosesOfBatch ct b = [])
    ∧ (∀ i col, (diagBaseCols.filter (fun c => c ∉ b.cols)) = [] →
        (i, col) ∈ (discoverDiagCols b.cols).enum →
        (diagnosesOfBatch ct b).filter (fun e => e.diagnosisPosition = i + 1)
          = b.rows.filterMap (emitDiag ct i col)) := by
  constructor
  · intro hmiss
    unfold diagnosesOfBatch
    by_cases hd : discoverDiagCols b.cols = []
    · rw [if_pos hd]
    · rw [if_neg hd, if_pos hmiss]
  · intro i col hbase hmem
    have hcols : ¬discoverDiagCols b.cols = [] := by
      intro hnil
      rw [hnil] at hmem
      cases hmem
    unfold diagnosesOfBatch
    rw [if_neg hcols, if_neg (by rw [hbase]; exact fun h => h rfl)]
    exact filter_pos_flatMap (fun j c2 => b.rows.filterMap (emitDiag ct j c2))
      (fun j c2 e he => by
        obtain ⟨r, _, hr⟩ := List.mem_filterMap.mp he
        exact (emitDiag_spec hr).2.2.1)
      (discoverDiagCols b.cols).enum
      (by rw [List.enum_map_fst]; exact List.nodup_range _)
      i col hmem

/-- A carrier batch whose payments are only at line level (no CLM_PMT_AMT
column) with a populated first diagnosis slot. -/
def c4BatchNoPmt : ClaimSourceBatch :=
  { cols := ["DESYNPUF_ID", "CLM_ID", "year", "bene_id_prefix",
             "LINE_NCH_PMT_AMT_1", "ICD9_DGNS_CD_1"],
    rows := [{ beneId := "B1", claimId := "K1", clmPmtAmt := none,
               year := 2008, beneIdPfx := "B1",
               diagCells := [("ICD9_DGNS_CD_1", some "2500")] }] }

/-- An inpatient batch whose discovered diagnosis columns are slots 1 and 3
(slot 2 column absent), with only slot 3 populated. -/
def c4BatchGap : ClaimSourceBatch :=
  { cols := ["DESYNPUF_ID", "CLM_ID", "CLM_PMT_AMT", "year", "bene_id_prefix",
             "ICD9_DGNS_CD_1", "ICD9_DGNS_CD_3"],
    rows := [{ beneId := "B1", claimId := "K1", clmPmtAmt := some 1000,
               year := 2008, beneIdPfx := "B1",
               diagCells := [("ICD9_DGNS_CD_1", some ""),
                             ("ICD9_DGNS_CD_3", some "2500")] }] }

/-- C4 counterexample to the claim as stated: the first batch has a populated
first diagnosis slot yet emits no row at all, because CLM_PMT_AMT is one of
the required base columns and is absent; the second batch has its populated
diagnosis in source slot 3 yet the emitted row carries position 2, the
1-based index of that column within the discovered column list. -/
theorem c4_counterexample :
    ((c4BatchNoPmt.rows.map
        (fun r => (r.diagCells.lookup ("ICD9_DGNS_CD_1")).join))
      = [some "2500"]
      ∧ diagnosesOfBatch "carrier" c4BatchNoPmt = [])
    ∧ ((diagnosesOfBatch "inpatient" c4BatchGap).map
        (fun e => (e.diagnosisCode, e.diagnosisPosition))
      = [("2500", 2)]) := by
  decide

/-- Witness for C4 at the sample inpatient batch: base columns all present,
the single discovered column sits at index 0, and position-1 rows are exactly
the emitDiag images of the rows with a populated first slot. -/
theorem c4_one_row_per_populated_slot_witness :
    (diagBaseCols.filter (fun c => c ∉ sampleDiagBatch.cols)) = []
    ∧ (0, "ICD9_DGNS_CD_1") ∈ (discoverDiagCols sampleDiagBatch.cols).enum
    ∧ (diagnosesOfBatch "inpatient" sampleDiagBatch).filter
        (fun e => e.diagnosisPosition = 0 + 1)
      = sampleDiagBatch.rows.filterMap (emitDiag "inpatient" 0 ("ICD9_DGNS_CD_1")) :=
  ⟨by decide, by decide,
    (c4_one_row_per_populated_slot "inpatient" sampleDiagBatch).2 0
      ("ICD9_DGNS_CD_1") (by decide) (by decide)⟩

/-- Columns of the silver fact_claims table used by
AnalyticsBuilder.create_member_year_metrics. -/
structure ClaimRow where
  beneId : String
  year : Int
  claimType : String
  claimId : String
  providerId : Option String
deriving DecidableEq, Repr

/-- Columns of the silver fact_prescription table used by the metrics view. -/
structure RxRow where
  beneId : String
  year : Int
  prescriptionId : String
  providerId : Option String
deriving DecidableEq, Repr

/-- Columns of dim_beneficiary selected into the base metrics frame. -/
structure BeneRow where
  beneId : String
  year : Int
  totalAllowed : Option Int
  totalPaid : Option Int
  gender : Option String
  race : Option String
  state : Option String
deriving DecidableEq, Repr

/-- One row of the member_year_metrics output. -/
structure MetricsRow where
  beneId : String
  year : Int
  totalAllowed : Option Int
  totalPaid : Option Int
  gender : Option String
  race : Option String
  state : Option String
  inpatientStays : Nat
  outpatientVisits : Nat
  carrierClaims : Nat
  uniqueProviders : Nat
  rxFills : Nat
deriving DecidableEq, Repr

/-- n_unique: the number of distinct values of a list. -/
def nUnique {α : Type} [DecidableEq α] (l : List α) : Nat := l.dedup.length

/-- Distinct claim ids of one (patient, year, claim kind): the claim_count
cell produced by group_by + n_unique, with an absent group read back as zero
through pivot fill_null and left-join fill_null. -/
def claimCount (cs : List ClaimRow) (b : String) (y : Int) (t : String) : Nat :=
  nUnique ((cs.filter (fun c => c.beneId = b ∧ c.year = y ∧ c.claimType = t)).map
    (fun c => c.claimId))

/-- Non-null, non-empty provider ids of the claims of one (patient, year),
in table order (the code filters the provider column first and groups after;
restricting to the patient-year first selects the same cells). -/
def claimProviders (cs : List ClaimRow) (b : String) (y : Int) : List String :=
  (cs.filter (fun c => c.beneId = b ∧ c.year = y)).filterMap
    (fun c => match c.providerId with
      | some p => if p = "" then none else some p
      | none => none)

/-- Non-null, non-empty provider ids of the prescriptions of one
(patient, year), in table order. -/
def rxProviders (rs : List RxRow) (b : String) (y : Int) : List String :=
  (rs.filter (fun r => r.beneId = b ∧ r.year = y)).filterMap
    (fun r => match r.providerId with
      | some p => if p = "" then none else some p
      | none => none)

/-- Distinct prescription ids of one (patient, year). -/
def rxFillCount (rs : List RxRow) (b : String) (y : Int) : Nat :=
  nUnique ((rs.filter (fun r => r.beneId = b ∧ r.year = y)).map
    (fun r => r.prescriptionId))

/-- The three claim kinds the metrics view pivots into columns. -/
def claimKinds : List String := ["inpatient", "outpatient", "carrier"]

/-- Embedding of AnalyticsBuilder.create_member_year_metrics.  The upstream
tables arrive as Option lists: none models a table whose partition files were
not found (_read_complete_table returned None).  An absent beneficiary table
makes the method return without producing a view (ok none).  When the claims
table is present, its counts are pivoted by claim_type and the three named
columns are selected; the pivot only creates columns for kinds that occur, so
a present claims table in which one of the three kinds never occurs makes the
column selection raise (error).  Otherwise one output row is built per
beneficiary row: the pivot + fill_null + left-join + fill_null chain of the
code reads back, for each beneficiary row, the distinct-claim count of its
(patient, year, kind) group or zero; unique_providers counts distinct
non-empty provider ids over claims only when prescriptions are absent, over
the concatenation of prescription and claim providers when both tables are
present, and is the placeholder zero when claims are absent; rx_fills counts
distinct prescription ids, zero when prescriptions are absent. -/
def createMemberYearMetrics (claimsTbl : Option (List ClaimRow))
    (rxTbl : Option (List RxRow)) (beneTbl : Option (List BeneRow)) :
    Except String (Option (List MetricsRow)) :=
  match beneTbl with
  | none => .ok none
  | some benes =>
    match claimsTbl with
    | some cs =>
      if ∀ t ∈ claimKinds, ∃ c ∈ cs, c.claimType = t then
        .ok (some (benes.map (fun b =>
          { beneId := b.beneId, year := b.year,
            totalAllowed := b.totalAllowed, totalPaid := b.totalPaid,
            gender := b.gender, race := b.race, state := b.state,
            inpatientStays := claimCount cs b.beneId b.year "inpatient",
            outpatientVisits := claimCount cs b.beneId b.year "outpatient",
            carrierClaims := claimCount cs b.beneId b.year "carrier",
            uniqueProviders :=
              match rxTbl with
              | some rs =>
                nUnique (rxProviders rs b.beneId b.year
                  ++ claimProviders cs b.beneId b.year)
              | none => nUnique (claimProviders cs b.beneId b.year),
            rxFills :=
              match rxTbl with
              | some rs => rxFillCount rs b.beneId b.year
              | none => 0 })))
      else .error "pivot produced no column for a claim type"
    | none =>
      .ok (some (benes.map (fun b =>
        { beneId := b.beneId, year := b.year,
          totalAllowed := b.totalAllowed, totalPaid := b.totalPaid,
          gender := b.gender, race := b.race, state := b.state,
          inpatientStays := 0, outpatientVisits := 0, carrierClaims := 0,
          uniqueProviders := 0,
          rxFills :=
            match rxTbl with
            | some rs => rxFillCount rs b.beneId b.year
            | none => 0 })))

/-- One PDE source row: string cells and currency cells by column name, plus
the year and partition-key columns the bronze stage always adds. -/
structure PdeRow where
  strCells : List (String × Option String)
  numCells : List (String × Option Int)
  year : Int
  beneIdPfx : String
deriving DecidableEq, Repr

/-- One PDE file: the names of the columns present plus the rows. -/
structure PdeBatch where
  cols : List String
  rows : List PdeRow
deriving DecidableEq, Repr

/-- String cell of a PDE row by column name. -/
def strVal (r : PdeRow) (c : String) : Option String := (r.strCells.lookup c).join

/-- Currency or count cell of a PDE row by column name. -/
def numVal (r : PdeRow) (c : String) : Option Int := (r.numCells.lookup c).join

/-- One row of the fact_prescription output. -/
structure RxOutRow where
  beneId : Option String
  prescriptionId : Option String
  serviceDate : Option String
  productId : Option String
  providerId : Option String
  quantityDispensed : Option Int
  daysSupply : Option Int
  patientPayment : Option Int
  totalCost : Option Int
  medicarePayment : Option Int
  year : Int
  beneIdPfx : String
deriving DecidableEq, Repr

/-- Embedding of the per-file body of DataTransformer.create_fact_prescription:
the file is skipped (contributes nothing) when DESYNPUF_ID, SRVC_DT or
TOT_RX_CST_AMT is missing or when neither CLM_ID nor PDE_ID is present;
otherwise each row is projected, the prescription id taken from CLM_ID when
present and PDE_ID otherwise, the provider column searched among PRVDR_ID,
PRSCRBR_ID, PHRMCY_ID and the product column among PROD_SRVC_ID, PRDUCT_ID,
NDC with the placeholder Unknown when absent, and the literal defaults
(quantity 1.00, days supply 30, patient payment 0) filled in for those
columns when absent.  The medicare_payment column is added after the files
are concatenated. -/
def processPdeBatch (b : PdeBatch) : Option (List RxOutRow) :=
  if "DESYNPUF_ID" ∈ b.cols ∧ "SRVC_DT" ∈ b.cols ∧ "TOT_RX_CST_AMT" ∈ b.cols
      ∧ ("CLM_ID" ∈ b.cols ∨ "PDE_ID" ∈ b.cols) then
    some (b.rows.map (fun r =>
      { beneId := strVal r ("DESYNPUF_ID"),
        prescriptionId :=
          if "CLM_ID" ∈ b.cols then strVal r ("CLM_ID") else strVal r ("PDE_ID"),
        serviceDate := strVal r ("SRVC_DT"),
        productId :=
          match ["PROD_SRVC_ID", "PRDUCT_ID", "NDC"].find? (fun c => c ∈ b.cols) with
          | some c => strVal r c
          | none => some "Unknown",
        providerId :=
          match ["PRVDR_ID", "PRSCRBR_ID", "PHRMCY_ID"].find? (fun c => c ∈ b.cols) with
          | some c => strVal r c
          | none => some "Unknown",
        quantityDispensed :=
          if "QTY_DSPNSD_NUM" ∈ b.cols then numVal r ("QTY_DSPNSD_NUM") else some 100,
        daysSupply :=
          if "DAYS_SUPLY_NUM" ∈ b.cols then numVal r ("DAYS_SUPLY_NUM") else some 30,
        patientPayment :=
          if "PTNT_PAY_AMT" ∈ b.cols then numVal r ("PTNT_PAY_AMT") else some 0,
        totalCost := numVal r ("TOT_RX_CST_AMT"),
        medicarePayment := none,
        year := r.year, beneIdPfx := r.beneIdPfx }))
  else none

/-- Embedding of DataTransformer.create_fact_prescription: when no file
yields a processed frame -- in particular when the prescription source is
wholly absent and the file list is empty -- the method raises; otherwise the
frames are concatenated and medicare_payment = total_cost - patient_payment
is added with null-propagating subtraction. -/
def createFactPrescription (files : List PdeBatch) : Except String (List RxOutRow) :=
  if (files.filterMap processPdeBatch) = [] then
    .error "No data found for fact_prescription"
  else
    .ok (((files.filterMap processPdeBatch).flatten).map
      (fun r => { r with medicarePayment := optSub r.totalCost r.patientPayment }))

/-- C5 counterexample to the claim as stated: an absent prescription source
(zero PDE files) makes the transform-stage method create_fact_prescription
raise rather than degrade, so an absent optional source can abort a pipeline
stage; the cited raise is the one at transform_data.py lines 660-662. -/
theorem c5_counterexample :
    createFactPrescription [] = .error "No data found for fact_prescription" := by
  rfl

/-- C5 (amended): within the metrics aggregation an absent claims table
degrades the four claim-derived metrics to zero on every beneficiary row, an
absent prescription table degrades rx_fills to zero on every beneficiary row,
neither absence makes the aggregation fail, and only an absent beneficiary
table is fatal to it (the method returns without building the view). -/
theorem c5_absent_sources_degrade (claimsTbl : Option (List ClaimRow))
    (rxTbl : Option (List RxRow)) (benes : List BeneRow) :
    (∃ out, createMemberYearMetrics none rxTbl (some benes) = .ok (some out)
      ∧ ∀ m ∈ out, m.inpatientStays = 0 ∧ m.outpatientVisits = 0
          ∧ m.carrierClaims = 0 ∧ m.uniqueProviders = 0)
    ∧ (∀ out, createMemberYearMetrics claimsTbl none (some benes) = .ok (some out) →
        ∀ m ∈ out, m.rxFills = 0)
    ∧ createMemberYearMetrics claimsTbl rxTbl none = .ok none := by
  refine ⟨⟨_, rfl, ?_⟩, ?_, rfl⟩
  · intro m hm
    obtain ⟨b, _, rfl⟩ := List.mem_map.mp hm
    exact ⟨rfl, rfl, rfl, rfl⟩
  · intro out hok m hm
    cases claimsTbl with
    | none =>
      simp only [createMemberYearMetrics, Except.ok.injEq, Option.some.injEq] at hok
      subst hok
      obtain ⟨b, _, rfl⟩ := List.mem_map.mp hm
      rfl
    | some cs =>
      simp only [createMemberYearMetrics] at hok
      split at hok
      · simp only [Except.ok.injEq, Option.some.injEq] at hok
        subst hok
        obtain ⟨b, _, rfl⟩ := List.mem_map.mp hm
        rfl
      · cases hok

/-- Demo claims table: three kinds, two claims sharing provider P1 and one
carrier claim with an empty provider id. -/
def demoClaims : List ClaimRow :=
  [{ beneId := "B1", year := 2008, claimType := "inpatient", claimId := "K1",
     providerId := some "P1" },
   { beneId := "B1", year := 2008, claimType := "outpatient", claimId := "K2",
     providerId := some "P1" },
   { beneId := "B1", year := 2008, claimType := "carrier", claimId := "K3",
     providerId := some "" }]

/-- Demo prescription table: one fill with the claim provider P1 and one with
a provider P2 seen only on prescriptions. -/
def demoRx : List RxRow :=
  [{ beneId := "B1", year := 2008, prescriptionId := "R1", providerId := some "P1" },
   { beneId := "B1", year := 2008, prescriptionId := "R2", providerId := some "P2" }]

/-- Demo beneficiary table with a single patient-year row. -/
def demoBenes : List BeneRow :=
  [{ beneId := "B1", year := 2008, totalAllowed := some 100000,
     totalPaid := some 90000, gender := some "Male", race := some "White",
     state := some "NY" }]

/-- The metrics row the demo inputs produce. -/
def demoMetricsRow : MetricsRow :=
  { beneId := "B1", year := 2008, totalAllowed := some 100000,
    totalPaid := some 90000, gender := some "Male", race := some "White",
    state := some "NY", inpatientStays := 1, outpatientVisits := 1,
    carrierClaims := 1, uniqueProviders := 2, rxFills := 2 }

/-- The metrics row the demo beneficiary produces when the claims table is
absent and the prescription table present. -/
def demoZeroRow : MetricsRow :=
  { beneId := "B1", year := 2008, totalAllowed := some 100000,
    totalPaid := some 90000, gender := some "Male", race := some "White",
    state := some "NY", inpatientStays := 0, outpatientVisits := 0,
    carrierClaims := 0, uniqueProviders := 0, rxFills := 2 }

/-- Witness for C5: with the claims table absent the demo beneficiary row
gets all-zero claim metrics; with the prescription table absent it gets zero
rx_fills; with the beneficiary table absent the aggregation yields no view. -/
theorem c5_absent_sources_degrade_witness :
    (createMemberYearMetrics none (some demoRx) (some demoBenes)
        = .ok (some [demoZeroRow]))
    ∧ demoZeroRow.inpatientStays = 0 ∧ demoZeroRow.uniqueProviders = 0
    ∧ (createMemberYearMetrics (some demoClaims) none (some demoBenes)
        = .ok (some [{ demoMetricsRow with uniqueProviders := 1, rxFills := 0 }]))
    ∧ ({ demoMetricsRow with uniqueProviders := 1, rxFills := 0 } : MetricsRow).rxFills = 0
    ∧ createMemberYearMetrics (some demoClaims) (some demoRx) none = .ok none := by
  have h := c5_absent_sources_degrade (some demoClaims) (some demoRx) demoBenes
  refine ⟨by rfl, ?_, by decide, by rfl, ?_, h.2.2⟩
  · obtain ⟨out, hout, hall⟩ := h.1
    have hz : demoZeroRow ∈ out := by
      have : out = [demoZeroRow] := by
        have h2 : createMemberYearMetrics none (some demoRx) (some demoBenes)
            = .ok (some [demoZeroRow]) := by rfl
        rw [h2] at hout
        simpa using hout.symm
      rw [this]
      exact List.mem_cons_self _ _
    exact (hall demoZeroRow hz).1
  · exact (c5_absent_sources_degrade (some demoClaims) none demoBenes).2.1
      [{ demoMetricsRow with uniqueProviders := 1, rxFills := 0 }] (by rfl)
      ({ demoMetricsRow with uniqueProviders := 1, rxFills := 0 }) (by decide)

/-- Distinct count of a concatenation as the size of the union of the value
sets of the two lists. -/
lemma nUnique_append_card {α : Type} [DecidableEq α] (l1 l2 : List α) :
    nUnique (l1 ++ l2) = (l2.toFinset ∪ l1.toFinset).card := by
  rw [nUnique, ← List.card_toFinset, List.toFinset_append, Finset.union_comm]

/-- C3: whenever the metrics view is built with both the claims and the
prescription tables present, every output row counts as unique_providers the
size of the union of the non-empty claim-provider ids and the non-empty
prescription-provider ids of its patient-year -- a provider in both sources
once, a prescription-only provider included. -/
theorem c3_unique_providers_union (cs : List ClaimRow) (rs : List RxRow)
    (benes : List BeneRow) (out : List MetricsRow)
    (hok : createMemberYearMetrics (some cs) (some rs) (some benes)
      = .ok (some out)) :
    ∀ m ∈ out, m.uniqueProviders
      = ((claimProviders cs m.beneId m.year).toFinset
          ∪ (rxProviders rs m.beneId m.year).toFinset).card := by
  simp only [createMemberYearMetrics] at hok
  split at hok
  · simp only [Except.ok.injEq, Option.some.injEq] at hok
    subst hok
    intro m hm
    obtain ⟨b, _, rfl⟩ := List.mem_map.mp hm
    exact nUnique_append_card _ _
  · cases hok

/-- Witness for C3 at the demo tables: provider P1 appears on a claim and a
prescription and is counted once, P2 appears only on a prescription and still
counts, the empty carrier provider id is ignored: the union has size two. -/
theorem c3_unique_providers_union_witness :
    (createMemberYearMetrics (some demoClaims) (some demoRx) (some demoBenes)
        = .ok (some [demoMetricsRow]))
    ∧ demoMetricsRow.uniqueProviders
        = ((claimProviders demoClaims demoMetricsRow.beneId demoMetricsRow.year).toFinset
            ∪ (rxProviders demoRx demoMetricsRow.beneId demoMetricsRow.year).toFinset).card :=
  ⟨by rfl,
    c3_unique_providers_union demoClaims demoRx demoBenes [demoMetricsRow]
      (by rfl) demoMetricsRow (by decide)⟩

/-- The value set of a list under a map is the image of its value set. -/
lemma toFinset_map_eq {α β : Type} [DecidableEq α] [DecidableEq β]
    (f : α → β) (l : List α) : (l.map f).toFinset = l.toFinset.image f := by
  ext x
  simp

/-- Tagging distinct ids with a fixed kind keeps the set size. -/
lemma card_image_tag (t : String) (s : Finset String) :
    (s.image (fun i => (t, i))).card = s.card := by
  apply Finset.card_image_of_injOn
  intro a _ b _ hab
  simpa using hab

/-- The distinct (kind, id) pair set of one patient-year splits as the
disjoint union of the tagged distinct-id sets of the three kinds, so the
pivoted per-kind distinct counts add up to the distinct pair count. -/
lemma claim_kind_counts_sum (cs : List ClaimRow) (b : String) (y : Int)
    (htypes : ∀ c ∈ cs, c.claimType ∈ claimKinds) :
    claimCount cs b y "inpatient" + claimCount cs b y "outpatient"
      + claimCount cs b y "carrier"
    = nUnique ((cs.filter (fun c => c.beneId = b ∧ c.year = y)).map
        (fun c => (c.claimType, c.claimId))) := by
  have idsOf : ∀ t : String,
      claimCount cs b y t
        = ((cs.filter (fun c => c.beneId = b ∧ c.year = y ∧ c.claimType = t)).map
            (fun c => c.claimId)).toFinset.card := by
    intro t
    rw [claimCount, nUnique, ← List.card_toFinset]
  have hsplit :
      ((cs.filter (fun c => c.beneId = b ∧ c.year = y)).map
          (fun c => (c.claimType, c.claimId))).toFinset
        = (((cs.filter (fun c =>
              c.beneId = b ∧ c.year = y ∧ c.claimType = "inpatient")).map
              (fun c => c.claimId)).toFinset.image (fun i => ("inpatient", i))
            ∪ ((cs.filter (fun c =>
              c.beneId = b ∧ c.year = y ∧ c.claimType = "outpatient")).map
              (fun c => c.claimId)).toFinset.image (fun i => ("outpatient", i)))
          ∪ ((cs.filter (fun c =>
              c.beneId = b ∧ c.year = y ∧ c.claimType = "carrier")).map
              (fun c => c.claimId)).toFinset.image (fun i => ("carrier", i)) := by
    ext p
    simp only [List.mem_toFinset, List.mem_map, List.mem_filter,
      Finset.mem_union, Finset.mem_image, decide_eq_true_eq]
    constructor
    · rintro ⟨c, ⟨hc, hb2, hy2⟩, rfl⟩
      have ht := htypes c hc
      have ht3 : c.claimType = "inpatient" ∨ c.claimType = "outpatient"
          ∨ c.claimType = "carrier" := by
        simpa [claimKinds] using ht
      rcases ht3 with ht | ht | ht
      · exact Or.inl (Or.inl ⟨c.claimId, ⟨c, ⟨hc, hb2, hy2, ht⟩, rfl⟩, by rw [ht]⟩)
      · exact Or.inl (Or.inr ⟨c.claimId, ⟨c, ⟨hc, hb2, hy2, ht⟩, rfl⟩, by rw [ht]⟩)
      · exact Or.inr ⟨c.claimId, ⟨c, ⟨hc, hb2, hy2, ht⟩, rfl⟩, by rw [ht]⟩
    · rintro ((⟨i, ⟨c, ⟨hc, hb2, hy2, ht⟩, rfl⟩, rfl⟩ | ⟨i, ⟨c, ⟨hc, hb2, hy2, ht⟩, rfl⟩, rfl⟩)
        | ⟨i, ⟨c, ⟨hc, hb2, hy2, ht⟩, rfl⟩, rfl⟩)
      · exact ⟨c, ⟨hc, hb2, hy2⟩, by rw [ht]⟩
      · exact ⟨c, ⟨hc, hb2, hy2⟩, by rw [ht]⟩
      · exact ⟨c, ⟨hc, hb2, hy2⟩, by rw [ht]⟩
  rw [idsOf, idsOf, idsOf, nUnique, ← List.card_toFinset, hsplit]
  have hdis1 : Disjoint
      (((cs.filter (fun c =>
          c.beneId = b ∧ c.year = y ∧ c.claimType = "inpatient")).map
          (fun c => c.claimId)).toFinset.image (fun i => ("inpatient", i)))
      (((cs.filter (fun c =>
          c.beneId = b ∧ c.year = y ∧ c.claimType = "outpatient")).map
          (fun c => c.claimId)).toFinset.image (fun i => ("outpatient", i))) := by
    rw [Finset.disjoint_left]
    rintro p hp1 hp2
    simp only [Finset.mem_image] at hp1 hp2
    obtain ⟨i1, _, h1⟩ := hp1
    obtain ⟨i2, _, h2⟩ := hp2
    rw [← h2] at h1
    have hx : ("inpatient" : String) = "outpatient" := by
      simpa using congrArg Prod.fst h1
    exact absurd hx (by decide)
  have hdis2 : Disjoint
      ((((cs.filter (fun c =>
          c.beneId = b ∧ c.year = y ∧ c.claimType = "inpatient")).map
          (fun c => c.claimId)).toFinset.image (fun i => ("inpatient", i)))
        ∪ (((cs.filter (fun c =>
          c.beneId = b ∧ c.year = y ∧ c.claimType = "outpatient")).map
          (fun c => c.claimId)).toFinset.image (fun i => ("outpatient", i))))
      (((cs.filter (fun c =>
          c.beneId = b ∧ c.year = y ∧ c.claimType = "carrier")).map
          (fun c => c.claimId)).toFinset.image (fun i => ("carrier", i))) := by
    rw [Finset.disjoint_left]
    rintro p hp1 hp2
    simp only [Finset.mem_union, Finset.mem_image] at hp1 hp2
    obtain ⟨i2, _, h2⟩ := hp2
    rcases hp1 with ⟨i1, _, h1⟩ | ⟨i1, _, h1⟩
    · rw [← h2] at h1
      have hx : ("inpatient" : String) = "carrier" := by
        simpa using congrArg Prod.fst h1
      exact absurd hx (by decide)
    · rw [← h2] at h1
      have hx : ("outpatient" : String) = "carrier" := by
        simpa using congrArg Prod.fst h1
      exact absurd hx (by decide)
  rw [Finset.card_union_of_disjoint hdis2, Finset.card_union_of_disjoint hdis1,
    card_image_tag, card_image_tag, card_image_tag]

/-- C6 (amended): every metrics row built with a present claims table carries
the per-kind distinct-claim-id counts of its patient-year (zero when the
combination is absent), and their sum equals the number of distinct
(claim kind, claim id) pairs of the claims table filtered to that
patient-year -- which is the distinct-claim-id count exactly when no claim id
is shared between two kinds within the patient-year. -/
theorem c6_kind_counts (cs : List ClaimRow) (rxTbl : Option (List RxRow))
    (benes : List BeneRow) (out : List MetricsRow)
    (hok : createMemberYearMetrics (some cs) rxTbl (some benes) = .ok (some out))
    (htypes : ∀ c ∈ cs, c.claimType ∈ claimKinds) :
    ∀ m ∈ out,
      m.inpatientStays = claimCount cs m.beneId m.year "inpatient"
      ∧ m.outpatientVisits = claimCount cs m.beneId m.year "outpatient"
      ∧ m.carrierClaims = claimCount cs m.beneId m.year "carrier"
      ∧ m.inpatientStays + m.outpatientVisits + m.carrierClaims
          = nUnique ((cs.filter (fun c => c.beneId = m.beneId ∧ c.year = m.year)).map
              (fun c => (c.claimType, c.claimId))) := by
  simp only [createMemberYearMetrics] at hok
  split at hok
  · simp only [Except.ok.injEq, Option.some.injEq] at hok
    subst hok
    intro m hm
    obtain ⟨b, _, rfl⟩ := List.mem_map.mp hm
    exact ⟨rfl, rfl, rfl, claim_kind_counts_sum cs b.beneId b.year htypes⟩
  · cases hok

/-- A claims table in which the same claim id K1 occurs as an inpatient and
as an outpatient claim of the same patient-year. -/
def c6Claims : List ClaimRow :=
  [{ beneId := "B1", year := 2008, claimType := "inpatient", claimId := "K1",
     providerId := none },
   { beneId := "B1", year := 2008, claimType := "outpatient", claimId := "K1",
     providerId := none },
   { beneId := "B1", year := 2008, claimType := "carrier", claimId := "K9",
     providerId := none }]

/-- The metrics row the shared-id claims table produces. -/
def c6Row : MetricsRow :=
  { beneId := "B1", year := 2008, totalAllowed := some 100000,
    totalPaid := some 90000, gender := some "Male", race := some "White",
    state := some "NY", inpatientStays := 1, outpatientVisits := 1,
    carrierClaims := 1, uniqueProviders := 0, rxFills := 0 }

/-- C6 counterexample to the claim as stated: with claim id K1 shared between
the inpatient and outpatient kinds, the pivoted counts sum to 3 while the
patient-year has only 2 distinct claim ids. -/
theorem c6_counterexample :
    createMemberYearMetrics (some c6Claims) none (some demoBenes)
      = .ok (some [c6Row])
    ∧ c6Row.inpatientStays + c6Row.outpatientVisits + c6Row.carrierClaims = 3
    ∧ nUnique ((c6Claims.filter
        (fun c => c.beneId = c6Row.beneId ∧ c.year = c6Row.year)).map
        (fun c => c.claimId)) = 2 :=
  ⟨by rfl, by decide, by decide⟩

/-- Witness for C6 at the demo tables: counts 1, 1, 1 and three distinct
(kind, id) pairs. -/
theorem c6_kind_counts_witness :
    (createMemberYearMetrics (some demoClaims) (some demoRx) (some demoBenes)
        = .ok (some [demoMetricsRow]))
    ∧ (∀ c ∈ demoClaims, c.claimType ∈ claimKinds)
    ∧ (demoMetricsRow.inpatientStays
          = claimCount demoClaims demoMetricsRow.beneId demoMetricsRow.year "inpatient"
      ∧ demoMetricsRow.outpatientVisits
          = claimCount demoClaims demoMetricsRow.beneId demoMetricsRow.year "outpatient"
      ∧ demoMetricsRow.carrierClaims
          = claimCount demoClaims demoMetricsRow.beneId demoMetricsRow.year "carrier"
      ∧ demoMetricsRow.inpatientStays + demoMetricsRow.outpatientVisits
          + demoMetricsRow.carrierClaims
          = nUnique ((demoClaims.filter
              (fun c => c.beneId = demoMetricsRow.beneId ∧ c.year = demoMetricsRow.year)).map
              (fun c => (c.claimType, c.claimId)))) :=
  ⟨by rfl, by decide,
    c6_kind_counts demoClaims (some demoRx) demoBenes [demoMetricsRow]
      (by rfl) (by decide) demoMetricsRow (by decide)⟩

/-- One row of fact_claim_diagnoses as read back by the analytics stage. -/
structure DiagLine where
  beneId : String
  year : Int
  diagnosisCode : String
  diagnosisDescription : String
  payment : Option Int
deriving DecidableEq, Repr

/-- The group key of the diagnosis-spend aggregation. -/
structure DiagKey where
  beneId : String
  year : Int
  code : String
  description : String
deriving DecidableEq, Repr

/-- Group key of one diagnosis row. -/
def diagKey (r : DiagLine) : DiagKey :=
  { beneId := r.beneId, year := r.year, code := r.diagnosisCode,
    description := r.diagnosisDescription }

/-- One aggregated diagnosis-spend row. -/
structure SpendRow where
  beneId : String
  year : Int
  diagnosisCode : String
  diagnosisDescription : String
  diagnosisPayment : Int
deriving DecidableEq, Repr

/-- Embedding of the group_by + agg step of create_top_diagnoses: one row per
distinct (bene, year, code, description) key carrying the null-skipping sum
of the payments of the rows of that key. -/
def diagnosisSpend (rows : List DiagLine) : List SpendRow :=
  ((rows.map diagKey).dedup).map (fun k =>
    { beneId := k.beneId, year := k.year, diagnosisCode := k.code,
      diagnosisDescription := k.description,
      diagnosisPayment :=
        ((rows.filter (fun r => diagKey r = k)).filterMap
          (fun r => r.payment)).sum })

/-- Payments of the spend rows of one (patient, year) window. -/
def groupPayments (spend : List SpendRow) (b : String) (y : Int) : List Int :=
  (spend.filter (fun s => s.beneId = b ∧ s.year = y)).map
    (fun s => s.diagnosisPayment)

/-- polars rank(method dense, descending) of a value within a window: one
plus the number of distinct strictly larger window values. -/
def denseRankDesc (pays : List Int) (p : Int) : Nat :=
  ((pays.filter (fun q => p < q)).dedup).length + 1

/-- Embedding of AnalyticsBuilder.create_top_diagnoses: aggregate the spend,
dense-rank it descending within each (bene, year) window, keep the rows of
rank at most 5.  The sort between the two steps only permutes rows; the rank
values and the filter do not depend on row order, so it is dropped here. -/
def topDiagnoses (rows : List DiagLine) : List SpendRow :=
  (diagnosisSpend rows).filter (fun s =>
    denseRankDesc (groupPayments (diagnosisSpend rows) s.beneId s.year)
      s.diagnosisPayment ≤ 5)

/-- The spend rows of one (patient, year). -/
def spendGroup (rows : List DiagLine) (b : String) (y : Int) : List SpendRow :=
  (diagnosisSpend rows).filter (fun s => s.beneId = b ∧ s.year = y)

/-- The kept top-diagnosis rows of one (patient, year). -/
def topGroup (rows : List DiagLine) (b : String) (y : Int) : List SpendRow :=
  (topDiagnoses rows).filter (fun s => s.beneId = b ∧ s.year = y)

/-- Rank of a spend row within the (patient, year) window it belongs to. -/
def groupRank (rows : List DiagLine) (b : String) (y : Int) (s : SpendRow) : Nat :=
  denseRankDesc ((spendGroup rows b y).map (fun s2 => s2.diagnosisPayment))
    s.diagnosisPayment

/-- The dense rank as a set operation: one plus the size of the strictly
larger part of the distinct window values. -/
lemma denseRankDesc_eq_finset (pays : List Int) (p : Int) :
    denseRankDesc pays p = (pays.toFinset.filter (fun q => p < q)).card + 1 := by
  rw [denseRankDesc, ← List.card_toFinset, List.toFinset_filter]
  simp only [decide_eq_true_eq]

/-- Dense ranking is strictly antitone on the distinct window values. -/
lemma denseRank_anti (P : Finset Int) {p q : Int} (hq : q ∈ P) (hpq : p < q) :
    (P.filter (fun r => q < r)).card < (P.filter (fun r => p < r)).card := by
  apply Finset.card_lt_card
  rw [Finset.ssubset_def]
  constructor
  · intro r hr
    simp only [Finset.mem_filter] at hr ⊢
    exact ⟨hr.1, lt_trans hpq hr.2⟩
  · intro hsub
    have hqmem : q ∈ P.filter (fun r => p < r) := by
      simp only [Finset.mem_filter]
      exact ⟨hq, hpq⟩
    have := hsub hqmem
    simp only [Finset.mem_filter] at this
    exact lt_irrefl q this.2

/-- The dense ranks of the members of a finite payment set are exactly the
interval 1..card: the rank map is injective into the interval, whose size is
the size of the set. -/
lemma denseRank_image_Icc (P : Finset Int) :
    P.image (fun p => (P.filter (fun q => p < q)).card + 1)
      = Finset.Icc 1 P.card := by
  apply Finset.eq_of_subset_of_card_le
  · intro n hn
    simp only [Finset.mem_image] at hn
    obtain ⟨p, hp, rfl⟩ := hn
    rw [Finset.mem_Icc]
    refine ⟨by omega, ?_⟩
    have hlt : (P.filter (fun q => p < q)).card < P.card := by
      apply Finset.card_lt_card
      rw [Finset.ssubset_def]
      refine ⟨Finset.filter_subset _ _, ?_⟩
      intro hsub
      have := hsub hp
      simp only [Finset.mem_filter] at this
      exact lt_irrefl p this.2
    omega
  · rw [Nat.card_Icc]
    have hinj : Set.InjOn (fun p => (P.filter (fun q => p < q)).card + 1) P := by
      intro p hp q hq heq
      simp only [Finset.mem_coe] at hp hq
      by_contra hne
      rcases lt_or_gt_of_ne hne with h | h
      · have := denseRank_anti P hq h
        simp only [] at heq
        omega
      · have := denseRank_anti P hp h
        simp only [] at heq
        omega
    rw [Finset.card_image_of_injOn hinj]
    omega

/-- The kept rows of a (patient, year) window are exactly its spend rows of
rank at most 5: restricting the global filter to one window only rewrites
each row's window key to the window's. -/
lemma topGroup_filter (rows : List DiagLine) (b : String) (y : Int) :
    topGroup rows b y
      = (spendGroup rows b y).filter (fun s => groupRank rows b y s ≤ 5) := by
  rw [topGroup, topDiagnoses, spendGroup, List.filter_filter, List.filter_filter]
  apply List.filter_congr
  intro s hs
  simp only [groupRank, spendGroup, groupPayments]
  by_cases hb2 : s.beneId = b
  · by_cases hy2 : s.year = y
    · simp [hb2, hy2, Bool.and_comm]
    · simp [hy2]
  · simp [hb2]

/-- Cutting the interval 1..D at k. -/
lemma filter_Icc_le (D k : Nat) :
    Finset.filter (fun n => n ≤ k) (Finset.Icc 1 D) = Finset.Icc 1 (min D k) := by
  ext n
  simp only [Finset.mem_filter, Finset.mem_Icc]
  omega

/-- The rank set emitted for one (patient, year) window is the interval from
1 to the smaller of 5 and the number of distinct window payments. -/
lemma topGroup_rank_set (rows : List DiagLine) (b : String) (y : Int) :
    ((topGroup rows b y).map (fun s => groupRank rows b y s)).toFinset
      = Finset.Icc 1
          (min (((spendGroup rows b y).map
            (fun s => s.diagnosisPayment)).toFinset.card) 5) := by
  rw [topGroup_filter]
  have h1 : ((spendGroup rows b y).filter
        (fun s => groupRank rows b y s ≤ 5)).map
        (fun s => groupRank rows b y s)
      = (((spendGroup rows b y).map (fun s => s.diagnosisPayment)).filter
          (fun p => denseRankDesc
            ((spendGroup rows b y).map (fun s2 => s2.diagnosisPayment)) p ≤ 5)).map
          (fun p => denseRankDesc
            ((spendGroup rows b y).map (fun s2 => s2.diagnosisPayment)) p) := by
    rw [List.filter_map, List.map_map]
    rfl
  rw [h1]
  set pays := (spendGroup rows b y).map (fun s => s.diagnosisPayment) with hpays
  ext n
  simp only [List.mem_toFinset, List.mem_map, List.mem_filter,
    decide_eq_true_eq, Finset.mem_Icc]
  constructor
  · rintro ⟨p, ⟨hp, hle⟩, rfl⟩
    have himg : denseRankDesc pays p ∈ Finset.Icc 1 pays.toFinset.card := by
      rw [← denseRank_image_Icc, denseRankDesc_eq_finset]
      exact Finset.mem_image_of_mem _ (List.mem_toFinset.mpr hp)
    rw [Finset.mem_Icc] at himg
    exact ⟨himg.1, le_min himg.2 hle⟩
  · rintro ⟨h1n, h2n⟩
    have hmem : n ∈ Finset.Icc 1 pays.toFinset.card :=
      Finset.mem_Icc.mpr ⟨h1n, le_trans h2n (min_le_left _ _)⟩
    rw [← denseRank_image_Icc] at hmem
    obtain ⟨p, hpP, hrank⟩ := Finset.mem_image.mp hmem
    refine ⟨p, ⟨List.mem_toFinset.mp hpP, ?_⟩, ?_⟩
    · rw [denseRankDesc_eq_finset, hrank]
      exact le_trans h2n (min_le_right _ _)
    · rw [denseRankDesc_eq_finset, hrank]

/-- Spend rows inherit the description invariant of the diagnosis rows. -/
lemma diagnosisSpend_desc {rows : List DiagLine}
    (hdesc : ∀ r ∈ rows, r.diagnosisDescription = icd9Description r.diagnosisCode) :
    ∀ s ∈ diagnosisSpend rows,
      s.diagnosisDescription = icd9Description s.diagnosisCode := by
  intro s hs
  rw [diagnosisSpend] at hs
  obtain ⟨k, hk, rfl⟩ := List.mem_map.mp hs
  have hk2 : k ∈ rows.map diagKey := List.dedup_subset _ hk
  obtain ⟨r, hr, rfl⟩ := List.mem_map.mp hk2
  exact hdesc r hr

/-- The aggregation emits one row per distinct key, so the spend rows are
distinct. -/
lemma diagnosisSpend_nodup (rows : List DiagLine) : (diagnosisSpend rows).Nodup := by
  rw [diagnosisSpend]
  refine List.Nodup.map_on ?_ (List.nodup_dedup _)
  intro k1 h1 k2 h2 heq
  have e1 := congrArg SpendRow.beneId heq
  have e2 := congrArg SpendRow.year heq
  have e3 := congrArg SpendRow.diagnosisCode heq
  have e4 := congrArg SpendRow.diagnosisDescription heq
  cases k1
  cases k2
  simp_all

/-- In a window, each spend row's payment is the null-skipping sum of the
window's diagnosis payments of its code: the description is a function of the
code, so grouping by (bene, year, code, description) groups by code. -/
lemma spendGroup_payment (rows : List DiagLine)
    (hdesc : ∀ r ∈ rows, r.diagnosisDescription = icd9Description r.diagnosisCode)
    (b : String) (y : Int) :
    ∀ s ∈ spendGroup rows b y,
      s.diagnosisPayment
        = ((rows.filter (fun r => r.beneId = b ∧ r.year = y
            ∧ r.diagnosisCode = s.diagnosisCode)).filterMap
            (fun r => r.payment)).sum := by
  intro s hs
  rw [spendGroup, List.mem_filter] at hs
  obtain ⟨hs1, hs2⟩ := hs
  simp only [decide_eq_true_eq] at hs2
  rw [diagnosisSpend] at hs1
  obtain ⟨k, hk, rfl⟩ := List.mem_map.mp hs1
  have hkdesc : k.description = icd9Description k.code := by
    have hk2 : k ∈ rows.map diagKey := List.dedup_subset _ hk
    obtain ⟨r0, hr0, rfl⟩ := List.mem_map.mp hk2
    exact hdesc r0 hr0
  obtain ⟨kb, ky, kc, kd⟩ := k
  have hb2 : kb = b := hs2.1
  have hy2 : ky = y := hs2.2
  have hfil : rows.filter (fun r => diagKey r = ⟨kb, ky, kc, kd⟩)
      = rows.filter (fun r => r.beneId = b ∧ r.year = y
          ∧ r.diagnosisCode = kc) := by
    apply List.filter_congr
    intro r hr
    rw [decide_eq_decide]
    constructor
    · intro he
      have f1 := congrArg DiagKey.beneId he
      have f2 := congrArg DiagKey.year he
      have f3 := congrArg DiagKey.code he
      simp only [diagKey] at f1 f2 f3
      exact ⟨by rw [f1, hb2], by rw [f2, hy2], f3⟩
    · rintro ⟨e1, e2, e3⟩
      have e4 : r.diagnosisDescription = kd := by
        rw [hdesc r hr, e3]
        exact hkdesc.symm
      rw [diagKey]
      rw [e1, e2, e3, e4, hb2, hy2]
  exact congrArg (fun l => (l.filterMap (fun r => r.payment)).sum) hfil

/-- Within a window the spend rows have pairwise distinct codes: same window
keys, same code, and the description a function of the code force equal keys. -/
lemma spendGroup_codes_nodup (rows : List DiagLine)
    (hdesc : ∀ r ∈ rows, r.diagnosisDescription = icd9Description r.diagnosisCode)
    (b : String) (y : Int) :
    ((spendGroup rows b y).map (fun s => s.diagnosisCode)).Nodup := by
  refine List.Nodup.map_on ?_ ((diagnosisSpend_nodup rows).filter _)
  intro s1 h1 s2 h2 hcode
  rw [spendGroup, List.mem_filter] at h1 h2
  obtain ⟨h1s, h1p⟩ := h1
  obtain ⟨h2s, h2p⟩ := h2
  simp only [decide_eq_true_eq] at h1p h2p
  have hd1 := diagnosisSpend_desc hdesc s1 h1s
  have hd2 := diagnosisSpend_desc hdesc s2 h2s
  rw [diagnosisSpend] at h1s h2s
  obtain ⟨k1, hk1, rfl⟩ := List.mem_map.mp h1s
  obtain ⟨k2, hk2, rfl⟩ := List.mem_map.mp h2s
  obtain ⟨k1b, k1y, k1c, k1d⟩ := k1
  obtain ⟨k2b, k2y, k2c, k2d⟩ := k2
  have ec : k1c = k2c := hcode
  subst ec
  have eb : k1b = k2b := by
    have e1 : k1b = b := h1p.1
    have e2 : k2b = b := h2p.1
    rw [e1, e2]
  subst eb
  have ey : k1y = k2y := by
    have e1 : k1y = y := h1p.2
    have e2 : k2y = y := h2p.2
    rw [e1, e2]
  subst ey
  have ed : k1d = k2d := by
    have e1 : k1d = icd9Description k1c := hd1
    have e2 : k2d = icd9Description k1c := hd2
    rw [e1, e2]
  subst ed
  rfl

/-- C1: in each (patient, year) window of the TopDiagnosis output, payments
are summed per diagnosis code (the description being a function of the code),
the kept rows are exactly the spend rows of dense rank at most 5 over payment
descending -- so tied codes at the boundary rank are all kept and the window
may hold more than 5 rows -- and the emitted rank set is the full interval
1..R with R the smaller of 5 and the number of distinct payments. -/
theorem c1_dense_rank_top_k (rows : List DiagLine)
    (hdesc : ∀ r ∈ rows, r.diagnosisDescription = icd9Description r.diagnosisCode)
    (b : String) (y : Int) :
    topGroup rows b y
      = (spendGroup rows b y).filter (fun s => groupRank rows b y s ≤ 5)
    ∧ (∀ s ∈ spendGroup rows b y,
        s.diagnosisPayment
          = ((rows.filter (fun r => r.beneId = b ∧ r.year = y
              ∧ r.diagnosisCode = s.diagnosisCode)).filterMap
              (fun r => r.payment)).sum)
    ∧ ((spendGroup rows b y).map (fun s => s.diagnosisCode)).Nodup
    ∧ ((topGroup rows b y).map (fun s => groupRank rows b y s)).toFinset
        = Finset.Icc 1
            (min (((spendGroup rows b y).map
              (fun s => s.diagnosisPayment)).toFinset.card) 5) :=
  ⟨topGroup_filter rows b y, spendGroup_payment rows hdesc b y,
   spendGroup_codes_nodup rows hdesc b y, topGroup_rank_set rows b y⟩

/-- The worked example of the specification: six diagnosis codes of one
patient-year with payments 500, 500, 300, 200, 200, 100 (in hundredths). -/
def c1Rows : List DiagLine :=
  [{ beneId := "P1", year := 2009, diagnosisCode := "A1",
     diagnosisDescription := "Other diagnosis", payment := some 50000 },
   { beneId := "P1", year := 2009, diagnosisCode := "B1",
     diagnosisDescription := "Other diagnosis", payment := some 50000 },
   { beneId := "P1", year := 2009, diagnosisCode := "C1",
     diagnosisDescription := "Other diagnosis", payment := some 30000 },
   { beneId := "P1", year := 2009, diagnosisCode := "D1",
     diagnosisDescription := "Other diagnosis", payment := some 20000 },
   { beneId := "P1", year := 2009, diagnosisCode := "E1",
     diagnosisDescription := "Other diagnosis", payment := some 20000 },
   { beneId := "P1", year := 2009, diagnosisCode := "F1",
     diagnosisDescription := "Other diagnosis", payment := some 10000 }]

/-- Witness for C1 at the worked example: the window keeps all six rows
(ranks 1, 1, 2, 3, 3, 4, all at most 5, so the group exceeds K = 5 rows
through the ties), and the emitted rank set is 1..4 = 1..min(4, 5). -/
theorem c1_dense_rank_top_k_witness :
    (∀ r ∈ c1Rows, r.diagnosisDescription = icd9Description r.diagnosisCode)
    ∧ (topGroup c1Rows "P1" 2009
        = (spendGroup c1Rows "P1" 2009).filter
            (fun s => groupRank c1Rows "P1" 2009 s ≤ 5))
    ∧ ((spendGroup c1Rows "P1" 2009).map (fun s => s.diagnosisCode)).Nodup
    ∧ ((topGroup c1Rows "P1" 2009).map
        (fun s => groupRank c1Rows "P1" 2009 s)).toFinset
        = Finset.Icc 1
            (min (((spendGroup c1Rows "P1" 2009).map
              (fun s => s.diagnosisPayment)).toFinset.card) 5)
    ∧ (topGroup c1Rows "P1" 2009).length = 6
    ∧ ((topGroup c1Rows "P1" 2009).map
        (fun s => groupRank c1Rows "P1" 2009 s)) = [1, 1, 2, 3, 3, 4] := by
  have h := c1_dense_rank_top_k c1Rows (by decide) "P1" 2009
  exact ⟨by decide, h.1, h.2.2.1, h.2.2.2, by decide, by decide⟩

/-- One row of the silver fact_claims table as written by create_fact_claims. -/
structure FactClaimRow where
  beneId : String
  claimId : String
  claimType : String
  claimFromDate : Option String
  claimThruDate : Option String
  providerId : Option String
  medicarePayment : Option Int
  thirdPartyPayment : Option Int
  patientPayment : Option Int
  year : Int
  beneIdPfx : String
  totalPayment : Option Int
deriving DecidableEq, Repr

/-- polars partition_by with as_dict: the distinct key values, each paired
with the sublist of rows carrying that key. -/
def partitionByKey {α κ : Type} [DecidableEq κ] (key : α → κ) (rows : List α) :
    List (κ × List α) :=
  ((rows.map key).dedup).map (fun k => (k, rows.filter (fun r => key r = k)))

/-- The partition files written by create_fact_claims: one per nested
(year, bene_id_prefix) pair, produced by partition_by year and then
partition_by bene_id_prefix within each year frame. -/
def writeFactClaimsFiles (rows : List FactClaimRow) : List (List FactClaimRow) :=
  (partitionByKey (fun r => r.year) rows).flatMap
    (fun yr => (partitionByKey (fun r => r.beneIdPfx) yr.2).map (fun pr => pr.2))

/-- Embedding of AnalyticsBuilder._read_complete_table: concatenate every
discovered partition file of the logical table. -/
def readCompleteTable {α : Type} (files : List (List α)) : List α := files.flatten

/-- The count of a value in a filtered list. -/
lemma count_filter_eq {α : Type} [DecidableEq α] (p : α → Bool) (l : List α)
    (a : α) : (l.filter p).count a = if p a then l.count a else 0 := by
  induction l with
  | nil => simp
  | cons x t ih =>
    by_cases hx : p x = true <;> by_cases hax : a = x <;>
      simp_all [List.filter_cons, List.count_cons]

/-- The sum of an indicator family over a duplicate-free list holding the
distinguished key. -/
lemma sum_if_single {κ : Type} [DecidableEq κ] {c : Nat} {k0 : κ}
    {ks : List κ} (hmem : k0 ∈ ks) (hnd : ks.Nodup) :
    (ks.map (fun k => if k0 = k then c else 0)).sum = c := by
  induction ks with
  | nil => cases hmem
  | cons x t ih =>
    rw [List.map_cons, List.sum_cons]
    rw [List.nodup_cons] at hnd
    rcases List.mem_cons.mp hmem with rfl | hm
    · rw [if_pos rfl]
      have hz : ∀ k ∈ t, (if k0 = k then c else 0) = 0 := by
        intro k hk
        rw [if_neg]
        intro he
        exact hnd.1 (he ▸ hk)
      rw [List.map_congr_left hz]
      simp
    · rw [if_neg, ih hm hnd.2, Nat.zero_add]
      intro he
      exact hnd.1 (he ▸ hm)

/-- Counting a value across the per-key partitions gives its count in the
whole table. -/
lemma sum_count_partition {α κ : Type} [DecidableEq α] [DecidableEq κ]
    (key : α → κ) (rows : List α) (a : α) :
    ((rows.map key).dedup.map
      (fun k => (rows.filter (fun r => key r = k)).count a)).sum
    = rows.count a := by
  have hterm : ∀ k ∈ (rows.map key).dedup,
      (rows.filter (fun r => key r = k)).count a
        = if key a = k then rows.count a else 0 := by
    intro k _
    rw [count_filter_eq]
    by_cases h : key a = k <;> simp [h]
  rw [List.map_congr_left hterm]
  by_cases hmem : key a ∈ (rows.map key).dedup
  · exact sum_if_single hmem ((rows.map key).nodup_dedup)
  · have hnotin : a ∉ rows := by
      intro ha
      exact hmem (List.mem_dedup.mpr (List.mem_map_of_mem key ha))
    have hcnt : rows.count a = 0 := List.count_eq_zero.mpr hnotin
    have hz : ∀ k ∈ (rows.map key).dedup,
        (if key a = k then rows.count a else 0) = 0 := by
      intro k _
      by_cases h : key a = k
      · rw [if_pos h, hcnt]
      · rw [if_neg h]
    rw [List.map_congr_left hz, hcnt]
    simp

/-- One partitioning level round-trips: concatenating the per-key sublists is
a permutation of the table. -/
lemma partition_flatten_perm {α κ : Type} [DecidableEq α] [DecidableEq κ]
    (key : α → κ) (rows : List α) :
    (((partitionByKey key rows).map (fun p => p.2)).flatten).Perm rows := by
  rw [List.perm_iff_count]
  intro a
  rw [List.count_flatten, partitionByKey, List.map_map, List.map_map]
  exact sum_count_partition key rows a

/-- Concatenation respects pointwise permutation of the chunks. -/
lemma flatten_perm_of_forall2 {α : Type} {L1 L2 : List (List α)}
    (h : List.Forall₂ List.Perm L1 L2) : L1.flatten.Perm L2.flatten := by
  induction h with
  | nil => exact List.Perm.refl _
  | cons h1 _ ih => simpa using h1.append ih

/-- Two maps of the same list are pointwise-permutation related when the
functions agree up to permutation on the members. -/
lemma forall2_perm_map {α β : Type} (l : List α) (f g : α → List β)
    (h : ∀ x ∈ l, (f x).Perm (g x)) :
    List.Forall₂ List.Perm (l.map f) (l.map g) := by
  induction l with
  | nil => exact List.Forall₂.nil
  | cons x t ih =>
    exact List.Forall₂.cons (h x (by simp))
      (ih (fun z hz => h z (by simp [hz])))

/-- C9: writing the fact_claims table out as its nested
(year, bene_id_prefix) partition files and reading the logical table back by
concatenating every file yields a permutation of the original rows -- the
same row multiset. -/
theorem c9_partition_roundtrip (rows : List FactClaimRow) :
    (readCompleteTable (writeFactClaimsFiles rows)).Perm rows := by
  rw [readCompleteTable, writeFactClaimsFiles, List.flatMap_def,
    List.flatten_flatten, List.map_map]
  have hstep : List.Forall₂ List.Perm
      ((partitionByKey (fun r => r.year) rows).map
        (List.flatten ∘ fun yr =>
          (partitionByKey (fun r => r.beneIdPfx) yr.2).map (fun pr => pr.2)))
      ((partitionByKey (fun r => r.year) rows).map (fun yr => yr.2)) := by
    apply forall2_perm_map
    intro yr _
    exact partition_flatten_perm (fun r => r.beneIdPfx) yr.2
  exact (flatten_perm_of_forall2 hstep).trans
    (partition_flatten_perm (fun r => r.year) rows)

/-- One row of the stored per-year patient_diagnoses file. -/
structure StoredDiagRow where
  beneId : String
  year : Int
  diagnosisCode : String
  diagnosisDescription : String
  diagnosisPayment : Int
  diagnosisRank : Nat
deriving DecidableEq, Repr

/-- One served diagnosis entry of the API response. -/
structure ApiDiagnosis where
  code : String
  description : Option String
  spend : Int
deriving DecidableEq, Repr

/-- Projection of a stored row into the served entry. -/
def apiDiag (r : StoredDiagRow) : ApiDiagnosis :=
  { code := r.diagnosisCode, description := some r.diagnosisDescription,
    spend := r.diagnosisPayment }

/-- Embedding of the top-diagnoses part of load_patient_data in api/main.py:
the year-partition file is filtered to the bene id; when rows remain they are
sorted by diagnosis_rank ascending when that column exists and by payment
descending otherwise, the first five rows are kept (head(5)), and each is
projected to a served entry. -/
def servedTopDiagnoses (stored : List StoredDiagRow) (beneId : String)
    (hasRankCol : Bool) : List ApiDiagnosis :=
  if (stored.filter (fun r => r.beneId = beneId)).length = 0 then []
  else
    (((if hasRankCol then
        (stored.filter (fun r => r.beneId = beneId)).mergeSort
          (fun a b2 => a.diagnosisRank ≤ b2.diagnosisRank)
      else
        (stored.filter (fun r => r.beneId = beneId)).mergeSort
          (fun a b2 => b2.diagnosisPayment ≤ a.diagnosisPayment))).take 5).map
      apiDiag

/-- C10: the served top_diagnoses list always holds min(group size, 5)
entries -- so a stored group of more than five rows, as arises from payment
ties at the boundary rank, is silently truncated to exactly five -- and with
the rank column present it is the projection of the first five rows of a
rank-ascending ordering of the stored group. -/
theorem c10_served_takes_five (stored : List StoredDiagRow) (b : String) :
    ((servedTopDiagnoses stored b true).length
        = min (stored.filter (fun r => r.beneId = b)).length 5)
    ∧ ((servedTopDiagnoses stored b false).length
        = min (stored.filter (fun r => r.beneId = b)).length 5)
    ∧ (∃ l : List StoredDiagRow,
        l.Perm (stored.filter (fun r => r.beneId = b))
        ∧ List.Pairwise (fun a c => a.diagnosisRank ≤ c.diagnosisRank) l
        ∧ servedTopDiagnoses stored b true = (l.take 5).map apiDiag) := by
  refine ⟨?_, ?_, ?_⟩
  · rw [servedTopDiagnoses]
    by_cases h0 : (stored.filter (fun r => r.beneId = b)).length = 0
    · rw [if_pos h0, h0]
      simp
    · rw [if_neg h0, if_pos rfl, List.length_map, List.length_take,
        List.length_mergeSort, Nat.min_comm]
  · rw [servedTopDiagnoses]
    by_cases h0 : (stored.filter (fun r => r.beneId = b)).length = 0
    · rw [if_pos h0, h0]
      simp
    · rw [if_neg h0]
      simp only [if_neg, Bool.false_eq_true, ite_false]
      rw [List.length_map, List.length_take, List.length_mergeSort,
        Nat.min_comm]
  · by_cases h0 : (stored.filter (fun r => r.beneId = b)).length = 0
    · refine ⟨[], ?_, List.Pairwise.nil, ?_⟩
      · rw [List.length_eq_zero] at h0
        rw [h0]
      · rw [servedTopDiagnoses, if_pos h0]
        rfl
    · refine ⟨(stored.filter (fun r => r.beneId = b)).mergeSort
          (fun a b2 => a.diagnosisRank ≤ b2.diagnosisRank),
        List.mergeSort_perm _ _, ?_, ?_⟩
      · have htrans : ∀ a b2 c : StoredDiagRow,
            (decide (a.diagnosisRank ≤ b2.diagnosisRank)) = true →
            (decide (b2.diagnosisRank ≤ c.diagnosisRank)) = true →
            (decide (a.diagnosisRank ≤ c.diagnosisRank)) = true := by
          intro a b2 c hab hbc
          simp only [decide_eq_true_eq] at hab hbc ⊢
          omega
        have htot : ∀ a b2 : StoredDiagRow,
            ((decide (a.diagnosisRank ≤ b2.diagnosisRank))
              || (decide (b2.diagnosisRank ≤ a.diagnosisRank))) = true := by
          intro a b2
          simp only [Bool.or_eq_true, decide_eq_true_eq]
          omega
        have h := List.sorted_mergeSort htrans htot
          (stored.filter (fun r => r.beneId = b))
        exact h.imp (fun hab => by simpa using hab)
      · rw [servedTopDiagnoses, if_neg h0, if_pos rfl]
